import Mathlib

/-!
Verification development for `our_weather_importer.py`: a shallow embedding of
the AEMET weather-import pipeline (module constants, the `SMART_DATA_MODEL`
template, the `get_request` helper and the `import_weather` task body), together
with theorems settling the specification claims about it.

Python `dict.get` on a possibly absent key is embedded as `Option`; exceptions
(`Exception` from `raise_request_exception`, `json.JSONDecodeError`,
`TypeError`, `ValueError`) as `Except ImportError`; floats as `Rat`.  The two
HTTP responses and the `json.loads` results of their bodies are supplied as an
explicit environment, since the network is outside the program.
-/

set_option autoImplicit false

namespace OurWeatherImporter

/-- `WEATHER_DATA_PROVIDER = "AEMET"` (module constant). -/
def WEATHER_DATA_PROVIDER : String := "AEMET"

/-- `WEATHER_URL` (module constant): the pointer endpoint. -/
def WEATHER_URL : String :=
  "https://opendata.aemet.es/opendata/api/observacion/convencional/todas"

/-- `WEATHER_API_KEY` (module constant, a placeholder in the source). -/
def WEATHER_API_KEY : String := "TO_BE_DEFINED"

/-- `LOCAL_HEADERS` (module constant): headers sent to the pointer endpoint. -/
def LOCAL_HEADERS : List (String × String) :=
  [("Content-Type", "application/json"), ("api_key", WEATHER_API_KEY)]

/-- `CITY_NAME` (module constant, a placeholder in the source).  The functions
below take the configured city name as an explicit parameter so that statements
can quantify over it; the source compares against this module-level constant. -/
def CITY_NAME : String := "TO_BE_DEFINED"

/-- `DATE_TIME_FORMAT` (module constant). -/
def DATE_TIME_FORMAT : String := "%Y-%m-%dT%H:%M:%S"

/-- `DATE_TIME_ISO_FORMAT` (module constant). -/
def DATE_TIME_ISO_FORMAT : String := "%Y-%m-%dT%H:%M:%SZ"

/-- One raw AEMET observation record, i.e. one element of the JSON array served
by the data endpoint.  Every field is optional because the loop body only ever
reads keys with `result.get(...)`, which yields `None` for absent keys. -/
structure RawRecord where
  idema : Option String := none
  lon : Option Rat := none
  lat : Option Rat := none
  fint : Option String := none
  ubi : Option String := none
  ta : Option Rat := none
  tamin : Option Rat := none
  tamax : Option Rat := none
  pres : Option Rat := none
  vmax : Option Rat := none
  dv : Option Rat := none
  nieve : Option Rat := none
  pres_nmar : Option Rat := none
  prec : Option Rat := none
  hr : Option Rat := none
  deriving DecidableEq

/-- The GeoJSON-like point built in the loop body: a literal `type` tag and a
two-element coordinate list whose entries are `result.get("lon")` and
`result.get("lat")` (so an absent coordinate appears as `none`). -/
structure GeoPoint where
  type : String
  coordinates : List (Option Rat)
  deriving DecidableEq

/-- The value side of the `data` key of `SMART_DATA_MODEL`: one mutable
dictionary.  Fields initialised to `0.0` or `""` in the template but later
assigned `result.get(...)` values are typed `Option` so both states are
representable. -/
structure WeatherData where
  name : String
  location : Option GeoPoint
  address : String
  areaServed : Option String
  temperature : Option Rat
  temperatureMinimum : Option Rat
  temperatureMaximum : Option Rat
  atmosphericPressure : Option Rat
  relativeHumidity : Option Rat
  windSpeed : Option Rat
  windDirection : Option Rat
  snowHeight : Option Rat
  atmosphericPressureSeaLevel : Option Rat
  rainTotalSum10 : Option Rat
  dateObserved : Option String
  dataProvider : String
  source : String
  deriving DecidableEq

/-- The outer `SMART_DATA_MODEL` dictionary: a model-name tag plus the data
dictionary. -/
structure SmartDataModel where
  model_name : String
  data : WeatherData
  deriving DecidableEq

/-- `SMART_DATA_MODEL` (module constant) exactly as initialised in the source
(lines 46-67): empty name and address, `None` location, zeroed measurements,
`None` relative humidity and date, static provider and source. -/
def SMART_DATA_MODEL : SmartDataModel :=
  { model_name := "weather.WeatherObserved"
    data :=
      { name := ""
        location := none
        address := ""
        areaServed := some ""
        temperature := some 0
        temperatureMinimum := some 0
        temperatureMaximum := some 0
        atmosphericPressure := some 0
        relativeHumidity := none
        windSpeed := some 0
        windDirection := some 0
        snowHeight := some 0
        atmosphericPressureSeaLevel := some 0
        rainTotalSum10 := some 0
        dateObserved := none
        dataProvider := WEATHER_DATA_PROVIDER
        source := WEATHER_URL } }

/-- The exceptions the pipeline can raise: the `Exception` built by
`raise_request_exception` for a non-200 response, `json.JSONDecodeError` from
`json.loads`, `TypeError` from passing `None` where a `str` is required
(`re.split` on a missing `ubi`, `strptime` on a missing `fint`), and
`ValueError` from `datetime.strptime` on an unparsable timestamp (carrying the
offending input). -/
inductive ImportError where
  | requestError (url : String) (status_code : Nat) (message : String)
  | decodeError
  | typeError
  | valueError (input : String)
  deriving DecidableEq

/-- `raise_request_exception` (lines 71-85): builds the exception raised for a
non-200 response. -/
def raise_request_exception (url : String) (status_code : Nat) (message : String) :
    ImportError :=
  .requestError url status_code message

/-- An HTTP response as the code observes it: status code and body text. -/
structure HttpResponse where
  status_code : Nat
  text : String
  deriving DecidableEq

/-- `get_request` (lines 88-111) applied to the response the network returned
for `url`: raises via `raise_request_exception` when the status is not 200,
otherwise hands the response back. -/
def get_request (url : String) (response : HttpResponse) :
    Except ImportError HttpResponse :=
  if response.status_code ≠ 200 then
    .error (raise_request_exception url response.status_code response.text)
  else
    .ok response

/-- The decoded JSON object of the pointer endpoint, of which the code reads
only the `datos` key (line 124). -/
structure PointerObj where
  datos : Option String
  deriving DecidableEq

/-- The observable outside world for one run of `import_weather`: the two HTTP
responses and the `json.loads` results of their bodies (`none` when the body is
not valid JSON of the shape the code consumes). -/
structure WeatherEnv where
  pointerResponse : HttpResponse
  pointerJson : Option PointerObj
  dataResponse : HttpResponse
  dataJson : Option (List RawRecord)
  deriving DecidableEq

/-- Character-list splitter behind `reSplit`: a separator ends the current
segment (empty segments are kept, as `re.split` keeps them); the empty input
yields the single empty segment. -/
def reSplitAux : List Char → List String
  | [] => [""]
  | c :: cs =>
    if c = '-' ∨ c = '/' then "" :: reSplitAux cs
    else
      match reSplitAux cs with
      | s :: rest => String.mk (c :: s.data) :: rest
      | [] => [String.mk [c]]

/-- `re.split("-|/", u)` (line 151): split on every `-` or `/`, keeping empty
segments. -/
def reSplit (u : String) : List String :=
  reSplitAux u.data

/-- `temp_location[0]`: the first segment of the composite location name.
`re.split` always returns a non-empty list, so the index never fails; the
default of `headD` is unreachable. -/
def firstSegment (u : String) : String :=
  (reSplit u).headD ""

/-- Python `"{}".format(x)` for an optional string: `None` prints as "None". -/
def pyFormatOpt : Option String → String
  | some s => s
  | none => "None"

/-- The `datetime` value produced by `datetime.strptime` with
`DATE_TIME_FORMAT`: the six parsed components. -/
structure PyDateTime where
  year : Nat
  month : Nat
  day : Nat
  hour : Nat
  minute : Nat
  second : Nat
  deriving DecidableEq

/-- The numeric value of a decimal digit character, `none` otherwise. -/
def digitVal? (c : Char) : Option Nat :=
  if c = '0' then some 0
  else if c = '1' then some 1
  else if c = '2' then some 2
  else if c = '3' then some 3
  else if c = '4' then some 4
  else if c = '5' then some 5
  else if c = '6' then some 6
  else if c = '7' then some 7
  else if c = '8' then some 8
  else if c = '9' then some 9
  else none

/-- Two decimal digit characters read as one number. -/
def parse2 (a b : Char) : Option Nat :=
  match digitVal? a, digitVal? b with
  | some x, some y => some (10 * x + y)
  | _, _ => none

/-- Four decimal digit characters read as one number. -/
def parse4 (a b c d : Char) : Option Nat :=
  match digitVal? a, digitVal? b, digitVal? c, digitVal? d with
  | some x, some y, some z, some w => some (1000 * x + 100 * y + 10 * z + w)
  | _, _, _, _ => none

/-- The Gregorian leap-year rule `datetime` uses to validate the day. -/
def isLeapYear (y : Nat) : Bool :=
  y % 4 == 0 && (y % 100 != 0 || y % 400 == 0)

/-- Number of days of month `m` in year `y`. -/
def daysInMonth (y m : Nat) : Nat :=
  if m = 2 then (if isLeapYear y then 29 else 28)
  else if m = 4 ∨ m = 6 ∨ m = 9 ∨ m = 11 then 30
  else 31

/-- `datetime.strptime(s, DATE_TIME_FORMAT)` on canonical fixed-width input:
four year digits, two digits per remaining component, the literal `-`, `T` and
`:` separators, and the validity checks `datetime` itself performs (year at
least 1, month 1-12, day within the month, hour below 24, minute and second
below 60).  `none` stands for the `ValueError` that `strptime` raises. -/
def strptime (s : String) : Option PyDateTime :=
  match s.data with
  | [a1, a2, a3, a4, b1, m1, m2, b2, d1, d2, b3, h1, h2, b4, n1, n2, b5, e1, e2] =>
    if b1 = '-' ∧ b2 = '-' ∧ b3 = 'T' ∧ b4 = ':' ∧ b5 = ':' then
      match parse4 a1 a2 a3 a4, parse2 m1 m2, parse2 d1 d2,
            parse2 h1 h2, parse2 n1 n2, parse2 e1 e2 with
      | some y, some mo, some dy, some hh, some nn, some ss =>
        if 1 ≤ y ∧ 1 ≤ mo ∧ mo ≤ 12 ∧ 1 ≤ dy ∧ dy ≤ daysInMonth y mo ∧
            hh ≤ 23 ∧ nn ≤ 59 ∧ ss ≤ 59 then
          some { year := y, month := mo, day := dy, hour := hh, minute := nn, second := ss }
        else none
      | _, _, _, _, _, _ => none
    else none
  | _ => none

/-- A component rendered as two zero-padded decimal digits (`%02d`; all
components `strptime` produces are below 100). -/
def pad2 (n : Nat) : List Char :=
  [Nat.digitChar (n / 10), Nat.digitChar (n % 10)]

/-- A year rendered as four zero-padded decimal digits (`%Y` of a four-digit
parse). -/
def pad4 (n : Nat) : List Char :=
  [Nat.digitChar (n / 1000), Nat.digitChar (n / 100 % 10),
   Nat.digitChar (n / 10 % 10), Nat.digitChar (n % 10)]

/-- `datetime.strftime(dt, DATE_TIME_ISO_FORMAT)`: the six components
re-rendered zero-padded with the original separators and a literal trailing
`Z`; no timezone arithmetic happens. -/
def strftimeZ (dt : PyDateTime) : String :=
  String.mk (pad4 dt.year ++ '-' :: pad2 dt.month ++ '-' :: pad2 dt.day ++
    'T' :: pad2 dt.hour ++ ':' :: pad2 dt.minute ++ ':' :: pad2 dt.second ++ ['Z'])

/-- The loop state of `import_weather`: `SMART_DATA_MODEL.copy()` is a shallow
copy, so the `data` entry of every `converted_item` is the very same dictionary
object as the `data` entry of the module-level `SMART_DATA_MODEL` template.
The state therefore carries that one shared data dictionary plus the number of
`converted_item` objects produced so far (each of which aliases
`sharedData`). -/
structure LoopState where
  sharedData : WeatherData
  itemsBuilt : Nat
  deriving DecidableEq

/-- The loop state at the start of a run: the module-level template as
initialised, no items yet. -/
def initialLoopState : LoopState :=
  { sharedData := SMART_DATA_MODEL.data, itemsBuilt := 0 }

/-- One iteration of the `for result in results` loop (lines 149-171).
`re.split("-|/", result.get("ubi"))` raises `TypeError` when `ubi` is absent;
on a first-segment match the body shallow-copies the template, assigns `name`,
`location` and `dateObserved` (where `strptime` raises `TypeError` on a missing
`fint` and `ValueError` on an unparsable one), conditionally assigns
`relativeHumidity` (Python truthiness: absent or `0.0` skips), and assigns the
ten translated fields from `result.get(...)`.  Mutations preceding a raised
exception are not observable through the return value and are not tracked. -/
def process_record (cityName : String) (st : LoopState) (result : RawRecord) :
    Except ImportError LoopState :=
  match result.ubi with
  | none => .error .typeError
  | some u =>
    let temp_location := reSplit u
    if temp_location.headD "" = cityName then
      let location : GeoPoint := { type := "Point", coordinates := [result.lon, result.lat] }
      let d0 := st.sharedData
      let d1 := { d0 with
        name := cityName ++ "-WO-" ++ pyFormatOpt result.idema
        location := some location }
      match result.fint with
      | none => .error .typeError
      | some fs =>
        match strptime fs with
        | none => .error (.valueError fs)
        | some dt =>
          let d2 := { d1 with dateObserved := some (strftimeZ dt) }
          let d3 :=
            match result.hr with
            | some h => if h = 0 then d2 else { d2 with relativeHumidity := some (h / 100) }
            | none => d2
          let d4 := { d3 with
            areaServed := result.ubi
            temperature := result.ta
            temperatureMinimum := result.tamin
            temperatureMaximum := result.tamax
            atmosphericPressure := result.pres
            windSpeed := result.vmax
            windDirection := result.dv
            snowHeight := result.nieve
            atmosphericPressureSeaLevel := result.pres_nmar
            rainTotalSum10 := result.prec }
          .ok { sharedData := d4, itemsBuilt := st.itemsBuilt + 1 }
    else
      .ok st

/-- The whole record loop: records processed in order; the first exception
aborts the run. -/
def processRecords (cityName : String) (results : List RawRecord) (st : LoopState) :
    Except ImportError LoopState :=
  match results with
  | [] => .ok st
  | r :: rs =>
    match process_record cityName st r with
    | .error e => .error e
    | .ok st' => processRecords cityName rs st'

/-- What one run of `import_weather` leaves behind: whether the second
(data-URL) fetch happened, how many `converted_item` objects were built, the
final state of the one shared data dictionary they all alias, and the Python
return value of the function.  The body of `import_weather` has no `return`
statement, so that value is `None` on every path. -/
structure RunResult where
  secondFetchPerformed : Bool
  itemsBuilt : Nat
  sharedData : WeatherData
  returnValue : Option (List WeatherData)
  deriving DecidableEq

/-- `import_weather` (lines 114-173), parameterised over the configured city
name and the observable network environment: fetch the pointer endpoint, read
`datos`, and if it is non-empty fetch the data URL, decode the record array and
run the loop.  A falsy `datos` (absent key or empty string) skips everything.
No path returns a value. -/
def import_weather (cityName : String) (env : WeatherEnv) :
    Except ImportError RunResult :=
  match get_request WEATHER_URL env.pointerResponse with
  | .error e => .error e
  | .ok _ =>
    match env.pointerJson with
    | none => .error .decodeError
    | some parsed =>
      match parsed.datos with
      | none =>
        .ok { secondFetchPerformed := false, itemsBuilt := 0,
              sharedData := SMART_DATA_MODEL.data, returnValue := none }
      | some final_weather_url =>
        if final_weather_url = "" then
          .ok { secondFetchPerformed := false, itemsBuilt := 0,
                sharedData := SMART_DATA_MODEL.data, returnValue := none }
        else
          match get_request final_weather_url env.dataResponse with
          | .error e => .error e
          | .ok _ =>
            match env.dataJson with
            | none => .error .decodeError
            | some results =>
              match processRecords cityName results initialLoopState with
              | .error e => .error e
              | .ok st =>
                .ok { secondFetchPerformed := true, itemsBuilt := st.itemsBuilt,
                      sharedData := st.sharedData, returnValue := none }

/-- The converted items as observable at the end of a successful run: each of
the `itemsBuilt` objects holds a reference to the one shared data dictionary,
so the data of each one equals its final state. -/
def entitiesAtEnd (r : RunResult) : List WeatherData :=
  List.replicate r.itemsBuilt r.sharedData

/-- Projection: the list of entities of a successful run, `none` on an aborted
run. -/
def runEntities (e : Except ImportError RunResult) : Option (List WeatherData) :=
  match e with
  | .ok r => some (entitiesAtEnd r)
  | .error _ => none

/-- Projection: second-fetch flag, item count and Python return value of a
successful run. -/
def runSummary (e : Except ImportError RunResult) :
    Option (Bool × Nat × Option (List WeatherData)) :=
  match e with
  | .ok r => some (r.secondFetchPerformed, r.itemsBuilt, r.returnValue)
  | .error _ => none

/-- Whether the record loop ran to completion without raising. -/
def loopCompletes (e : Except ImportError LoopState) : Bool :=
  match e with
  | .ok _ => true
  | .error _ => false

/-!
Concrete fixtures used by the claim theorems below: a handful of raw records
and environments.  City name "GRANADA" mostly plays the configured target
location.
-/

/-- A well-formed record matching GRANADA (station 5530E). -/
def recGranadaOk : RawRecord :=
  { idema := some "5530E", lon := some 10, lat := some 20,
    fint := some "2023-06-29T20:00:00", ubi := some "GRANADA/AEROPUERTO",
    ta := some 10, hr := some 50 }

/-- A second well-formed record matching GRANADA (station C2), dash separator. -/
def recGranadaOk2 : RawRecord :=
  { idema := some "C2", lon := some 11, lat := some 21,
    fint := some "2023-06-29T21:00:00", ubi := some "GRANADA-CENTRO",
    ta := some 12, hr := some 40 }

/-- A well-formed record for a different city. -/
def recMadrid : RawRecord :=
  { idema := some "M1", lon := some 1, lat := some 2,
    fint := some "2023-06-29T20:00:00", ubi := some "MADRID-RETIRO",
    ta := some 5, hr := some 30 }

/-- A GRANADA record whose `fint` is not in `DATE_TIME_FORMAT`. -/
def recGranadaBadFint : RawRecord :=
  { idema := some "B1", lon := some 3, lat := some 4,
    fint := some "29-06-2023 20:00", ubi := some "GRANADA/CARTUJA",
    ta := some 7, hr := some 20 }

/-- A SEVILLA record whose `fint` is unparsable. -/
def recSevillaBadFint : RawRecord :=
  { idema := some "S1", ubi := some "SEVILLA-ESTE", fint := some "bad" }

/-- A record with no `ubi` key at all. -/
def recNoUbi : RawRecord :=
  { idema := some "N1", fint := some "2023-06-29T20:00:00" }

/-- A GRANADA record with no `fint` key at all. -/
def recGranadaNoFint : RawRecord :=
  { idema := some "F1", ubi := some "GRANADA-NORTE" }

/-- A GRANADA record with a longitude but no latitude. -/
def recGranadaLonOnly : RawRecord :=
  { idema := some "L1", lon := some 3,
    fint := some "2023-06-29T20:00:00", ubi := some "GRANADA/SUR" }

/-- A GRANADA record with temperature 10. -/
def recGranadaTa10 : RawRecord :=
  { idema := some "T10", fint := some "2023-06-29T20:00:00",
    ubi := some "GRANADA/AEROPUERTO", ta := some 10, hr := some 30 }

/-- A GRANADA record with temperature 20 from another station. -/
def recGranadaTa20 : RawRecord :=
  { idema := some "T20", fint := some "2023-06-29T21:00:00",
    ubi := some "GRANADA-ARMILLA", ta := some 20, hr := some 60 }

/-- A GRANADA record with relative humidity 50. -/
def recGranadaHr50 : RawRecord :=
  { idema := some "H1", fint := some "2023-06-29T20:00:00",
    ubi := some "GRANADA/AEROPUERTO", hr := some 50 }

/-- A GRANADA record with no `hr` key. -/
def recGranadaHrNone : RawRecord :=
  { idema := some "H2", fint := some "2023-06-29T21:00:00",
    ubi := some "GRANADA-ZAIDIN" }

/-- A healthy environment: both endpoints answer 200, the pointer body carries
a non-empty data URL, the data body decodes to the given records. -/
def mkEnv (records : List RawRecord) : WeatherEnv :=
  { pointerResponse := { status_code := 200, text := "" },
    pointerJson := some { datos := some "https://example.org/data" },
    dataResponse := { status_code := 200, text := "" },
    dataJson := some records }

/-- Pointer answers 200 with `datos` holding the empty string.  The data-side
response is deliberately broken (status 500, undecodable body) to witness that
it is never consulted. -/
def envDatosEmpty : WeatherEnv :=
  { pointerResponse := { status_code := 200, text := "" },
    pointerJson := some { datos := some "" },
    dataResponse := { status_code := 500, text := "boom" },
    dataJson := none }

/-- Pointer answers 200 with no `datos` key.  The data-side response is again
deliberately broken. -/
def envDatosMissing : WeatherEnv :=
  { pointerResponse := { status_code := 200, text := "" },
    pointerJson := some { datos := none },
    dataResponse := { status_code := 500, text := "boom" },
    dataJson := none }

/-- A successful `digitVal?` read identifies the character: writing the value
back with `Nat.digitChar` restores it, and the value is a single digit. -/
theorem digitVal?_spec (c : Char) (k : Nat) (h : digitVal? c = some k) :
    Nat.digitChar k = c ∧ k ≤ 9 := by
  unfold digitVal? at h
  repeat' split at h
  all_goals simp_all
  all_goals subst h
  all_goals decide

/-- Re-rendering a two-digit parse reproduces the two source characters. -/
theorem parse2_pad2 (a b : Char) (n : Nat) (h : parse2 a b = some n) :
    pad2 n = [a, b] := by
  unfold parse2 at h
  split at h
  case _ x y ha hb =>
    obtain ⟨hca, hxa⟩ := digitVal?_spec a x ha
    obtain ⟨hcb, hxb⟩ := digitVal?_spec b y hb
    cases h
    unfold pad2
    have h1 : (10 * x + y) / 10 = x := by omega
    have h2 : (10 * x + y) % 10 = y := by omega
    rw [h1, h2, hca, hcb]
  case _ => cases h

/-- Re-rendering a four-digit parse reproduces the four source characters. -/
theorem parse4_pad4 (a b c d : Char) (n : Nat) (h : parse4 a b c d = some n) :
    pad4 n = [a, b, c, d] := by
  unfold parse4 at h
  split at h
  case _ x y z w ha hb hc hd =>
    obtain ⟨hca, hxa⟩ := digitVal?_spec a x ha
    obtain ⟨hcb, hxb⟩ := digitVal?_spec b y hb
    obtain ⟨hcc, hxc⟩ := digitVal?_spec c z hc
    obtain ⟨hcd, hxd⟩ := digitVal?_spec d w hd
    cases h
    unfold pad4
    have h1 : (1000 * x + 100 * y + 10 * z + w) / 1000 = x := by omega
    have h2 : (1000 * x + 100 * y + 10 * z + w) / 100 % 10 = y := by omega
    have h3 : (1000 * x + 100 * y + 10 * z + w) / 10 % 10 = z := by omega
    have h4 : (1000 * x + 100 * y + 10 * z + w) % 10 = w := by omega
    rw [h1, h2, h3, h4, hca, hcb, hcc, hcd]
  case _ => cases h

/-- Re-formatting a successfully parsed timestamp reproduces the input string
with the literal `Z` appended: the `strptime` and `strftime` pair performs pure
re-formatting, no timezone arithmetic. -/
theorem strftimeZ_strptime (s : String) (dt : PyDateTime) (h : strptime s = some dt) :
    strftimeZ dt = s ++ "Z" := by
  obtain ⟨sd⟩ := s
  unfold strptime at h
  split at h
  case _ a1 a2 a3 a4 b1 m1 m2 b2 d1 d2 b3 h1 h2 b4 n1 n2 b5 e1 e2 hsd =>
    subst hsd
    split at h
    case isFalse => cases h
    case isTrue hsep =>
      obtain ⟨hb1, hb2, hb3, hb4, hb5⟩ := hsep
      split at h
      case _ y mo dy hh nn ss hy hmo hdy hhh hnn hss =>
        split at h
        case isFalse => cases h
        case isTrue hrange =>
          cases h
          subst hb1; subst hb2; subst hb3; subst hb4; subst hb5
          unfold strftimeZ
          rw [show (String.mk [a1, a2, a3, a4, '-', m1, m2, '-', d1, d2, 'T', h1, h2, ':', n1, n2, ':', e1, e2] ++ "Z")
            = String.mk ([a1, a2, a3, a4, '-', m1, m2, '-', d1, d2, 'T', h1, h2, ':', n1, n2, ':', e1, e2] ++ ['Z']) from rfl]
          rw [parse4_pad4 a1 a2 a3 a4 y hy, parse2_pad2 m1 m2 mo hmo, parse2_pad2 d1 d2 dy hdy,
            parse2_pad2 h1 h2 hh hhh, parse2_pad2 n1 n2 nn hnn, parse2_pad2 e1 e2 ss hss]
          rfl
      case _ => cases h
  case _ => cases h

/-- The record loop over a concatenation: run the first part, and if it did not
raise, continue with the second from the reached state. -/
theorem processRecords_append (cityName : String) (xs ys : List RawRecord) (st : LoopState) :
    processRecords cityName (xs ++ ys) st =
      match processRecords cityName xs st with
      | .error e => .error e
      | .ok st' => processRecords cityName ys st' := by
  induction xs generalizing st with
  | nil => rfl
  | cons r rs ih =>
    show processRecords cityName (r :: (rs ++ ys)) st = _
    cases hpr : process_record cityName st r with
    | error e => simp [processRecords, hpr]
    | ok st' => simp [processRecords, hpr, ih st']

/-- The loop on no records keeps the state. -/
theorem processRecords_nil (cityName : String) (st : LoopState) :
    processRecords cityName [] st = .ok st := rfl

/-- One unfolding step of the record loop. -/
theorem processRecords_cons (cityName : String) (r : RawRecord) (rs : List RawRecord)
    (st : LoopState) :
    processRecords cityName (r :: rs) st =
      match process_record cityName st r with
      | .error e => .error e
      | .ok st' => processRecords cityName rs st' := rfl

/-- `headD` and `head?.getD` agree; lets hypotheses about `firstSegment` hit
the form `simp` produces. -/
theorem firstSegment_head (u : String) : (reSplit u).head?.getD "" = firstSegment u := by
  cases h : reSplit u <;> simp [firstSegment, h]

/-- What one loop iteration does to a record whose first location segment
matches and whose timestamp parses: one more item is built and every field of
the shared data dictionary except `address`, `dataProvider` and `source` is
reassigned from the record (`relativeHumidity` only when `hr` is truthy). -/
theorem process_record_matching (cityName : String) (st : LoopState) (r : RawRecord)
    (u fs : String) (dt : PyDateTime)
    (hu : r.ubi = some u) (hm : firstSegment u = cityName)
    (hf : r.fint = some fs) (hp : strptime fs = some dt) :
    process_record cityName st r = .ok
      { sharedData := { st.sharedData with
          name := cityName ++ "-WO-" ++ pyFormatOpt r.idema
          location := some { type := "Point", coordinates := [r.lon, r.lat] }
          dateObserved := some (strftimeZ dt)
          relativeHumidity :=
            match r.hr with
            | some h => if h = 0 then st.sharedData.relativeHumidity else some (h / 100)
            | none => st.sharedData.relativeHumidity
          areaServed := r.ubi
          temperature := r.ta
          temperatureMinimum := r.tamin
          temperatureMaximum := r.tamax
          atmosphericPressure := r.pres
          windSpeed := r.vmax
          windDirection := r.dv
          snowHeight := r.nieve
          atmosphericPressureSeaLevel := r.pres_nmar
          rainTotalSum10 := r.prec }
        itemsBuilt := st.itemsBuilt + 1 } := by
  have hm' : (reSplit u).headD "" = cityName := hm
  have hm2 : (reSplit u).head?.getD "" = cityName := by
    cases hsp : reSplit u <;> simpa [hsp] using hm'
  cases hhr : r.hr with
  | none => simp [process_record, hu, hm2, hf, hp, hhr]
  | some h =>
    by_cases h0 : h = 0
    · simp [process_record, hu, hm2, hf, hp, hhr, h0]
    · simp [process_record, hu, hm2, hf, hp, hhr, h0]

/-- A record with a present `ubi` whose first segment differs from the target
is skipped: the loop state is unchanged. -/
theorem process_record_nonmatching (cityName : String) (st : LoopState) (r : RawRecord)
    (u : String) (hu : r.ubi = some u) (hm : firstSegment u ≠ cityName) :
    process_record cityName st r = .ok st := by
  have hm2 : ¬((reSplit u).head?.getD "" = cityName) := by
    intro hc
    apply hm
    show (reSplit u).headD "" = cityName
    cases hsp : reSplit u <;> simpa [hsp] using hc
  simp [process_record, hu, hm2]

/-- A record without a `ubi` key makes `re.split` receive `None` and raise
`TypeError`, before the location comparison is even reached. -/
theorem process_record_missing_ubi (cityName : String) (st : LoopState) (r : RawRecord)
    (hu : r.ubi = none) : process_record cityName st r = .error .typeError := by
  simp [process_record, hu]

/-- A matching record without a `fint` key makes `datetime.strptime` receive
`None` and raise `TypeError`. -/
theorem process_record_missing_fint (cityName : String) (st : LoopState) (r : RawRecord)
    (u : String) (hu : r.ubi = some u) (hm : firstSegment u = cityName)
    (hf : r.fint = none) : process_record cityName st r = .error .typeError := by
  have hm2 : (reSplit u).head?.getD "" = cityName := (firstSegment_head u).trans hm
  simp [process_record, hu, hm2, hf]

/-- A matching record whose `fint` does not parse makes `datetime.strptime`
raise `ValueError`. -/
theorem process_record_bad_fint (cityName : String) (st : LoopState) (r : RawRecord)
    (u fs : String) (hu : r.ubi = some u) (hm : firstSegment u = cityName)
    (hf : r.fint = some fs) (hp : strptime fs = none) :
    process_record cityName st r = .error (.valueError fs) := by
  have hm2 : (reSplit u).head?.getD "" = cityName := (firstSegment_head u).trans hm
  simp [process_record, hu, hm2, hf, hp]

/-- Under a healthy environment the run reduces to the record loop from the
template state. -/
theorem import_weather_reaches_loop (cityName url : String) (env : WeatherEnv)
    (results : List RawRecord)
    (h1 : env.pointerResponse.status_code = 200)
    (h2 : env.pointerJson = some { datos := some url }) (h3 : url ≠ "")
    (h4 : env.dataResponse.status_code = 200)
    (h5 : env.dataJson = some results) :
    import_weather cityName env =
      match processRecords cityName results initialLoopState with
      | .error e => .error e
      | .ok st => .ok { secondFetchPerformed := true, itemsBuilt := st.itemsBuilt,
                        sharedData := st.sharedData, returnValue := none } := by
  simp [import_weather, get_request, h1, h2, h3, h4, h5]

/-- If some record raises (regardless of the loop state it is reached in) and
the records before it complete, the whole run raises that exception. -/
theorem import_weather_aborts_at (cityName url : String) (env : WeatherEnv)
    (pre post : List RawRecord) (r : RawRecord) (e : ImportError)
    (h1 : env.pointerResponse.status_code = 200)
    (h2 : env.pointerJson = some { datos := some url }) (h3 : url ≠ "")
    (h4 : env.dataResponse.status_code = 200)
    (h5 : env.dataJson = some (pre ++ r :: post))
    (hpre : loopCompletes (processRecords cityName pre initialLoopState) = true)
    (hrec : ∀ st, process_record cityName st r = .error e) :
    import_weather cityName env = .error e := by
  rw [import_weather_reaches_loop cityName url env (pre ++ r :: post) h1 h2 h3 h4 h5]
  rw [processRecords_append]
  cases hok : processRecords cityName pre initialLoopState with
  | error e' => rw [hok] at hpre; simp [loopCompletes] at hpre
  | ok st => simp [processRecords_cons, hrec st]

/-- Claim C1: on a data array with one record matching the target location and
one not, the run builds exactly one converted item, the one mapped from the
matching record (its name is GRANADA-WO-5530E) - but `import_weather` never
appends it to any collection and has no `return` statement, so the Python
return value of the run is `None`, not the accumulated one-entity sequence. -/
theorem c1_run_builds_but_returns_nothing :
    runSummary (import_weather "GRANADA" (mkEnv [recGranadaOk, recMadrid])) = some (true, 1, none)
  ∧ (runEntities (import_weather "GRANADA" (mkEnv [recGranadaOk, recMadrid]))).map
      (fun l => l.map (fun d => d.name)) = some ["GRANADA-WO-5530E"] :=
  ⟨rfl, rfl⟩

/-- Claim C2, counterexample: a matching record with an unparsable `fint`
placed between two valid matching records makes the whole run raise
`ValueError`; the run does fail, nothing is skipped and no entities survive. -/
theorem c2_counterexample :
    import_weather "GRANADA" (mkEnv [recGranadaOk, recGranadaBadFint, recGranadaOk2])
      = .error (.valueError "29-06-2023 20:00") := rfl

/-- Claim C2, amended: a matching record whose `fint` does not parse aborts the
entire run with `ValueError` carrying the offending string, no matter which
records precede (as long as they were processed without raising) or follow. -/
theorem c2_amended_bad_fint_aborts_run (cityName url : String) (env : WeatherEnv)
    (pre post : List RawRecord) (bad : RawRecord) (u fs : String)
    (h1 : env.pointerResponse.status_code = 200)
    (h2 : env.pointerJson = some { datos := some url }) (h3 : url ≠ "")
    (h4 : env.dataResponse.status_code = 200)
    (h5 : env.dataJson = some (pre ++ bad :: post))
    (hpre : loopCompletes (processRecords cityName pre initialLoopState) = true)
    (hu : bad.ubi = some u) (hm : firstSegment u = cityName)
    (hf : bad.fint = some fs) (hp : strptime fs = none) :
    import_weather cityName env = .error (.valueError fs) :=
  import_weather_aborts_at cityName url env pre post bad _ h1 h2 h3 h4 h5 hpre
    (fun st => process_record_bad_fint cityName st bad u fs hu hm hf hp)

/-- Claim C2, witness for the amended theorem at a concrete environment. -/
theorem c2_amended_witness :
    import_weather "SEVILLA" (mkEnv [recSevillaBadFint]) = .error (.valueError "bad") :=
  c2_amended_bad_fint_aborts_run "SEVILLA" "https://example.org/data"
    (mkEnv [recSevillaBadFint]) [] [] recSevillaBadFint
    "SEVILLA-ESTE" "bad" rfl rfl (by decide) rfl rfl rfl rfl rfl rfl rfl

/-- Claim C3, counterexample: two matching records carry temperatures 10 and
20, yet both items observable at the end of the run carry temperature 20 - the
values of the first record were overwritten through the shared data
dictionary, so the entities do not carry their own record values. -/
theorem c3_counterexample :
    (runEntities (import_weather "GRANADA" (mkEnv [recGranadaTa10, recGranadaTa20]))).map
        (fun l => l.map (fun d => d.temperature))
      = some [some 20, some 20]
  ∧ recGranadaTa10.ta = some 10
  ∧ recGranadaTa20.ta = some 20
  ∧ ((some 20 : Option Rat) ≠ some 10) :=
  ⟨rfl, rfl, rfl, by decide⟩

/-- Claim C3, amended: every converted item aliases the one shallow-copied
data dictionary, so after a run over exactly two matching records both items
carry the name and the temperature mapped from the second record. -/
theorem c3_amended_shared_template_overwrite (cityName url : String) (env : WeatherEnv)
    (r1 r2 : RawRecord) (u1 u2 f1 f2 : String) (dt1 dt2 : PyDateTime)
    (h1 : env.pointerResponse.status_code = 200)
    (h2 : env.pointerJson = some { datos := some url }) (h3 : url ≠ "")
    (h4 : env.dataResponse.status_code = 200)
    (h5 : env.dataJson = some [r1, r2])
    (hu1 : r1.ubi = some u1) (hm1 : firstSegment u1 = cityName)
    (hf1 : r1.fint = some f1) (hp1 : strptime f1 = some dt1)
    (hu2 : r2.ubi = some u2) (hm2 : firstSegment u2 = cityName)
    (hf2 : r2.fint = some f2) (hp2 : strptime f2 = some dt2) :
    (runEntities (import_weather cityName env)).map
        (fun l => l.map (fun d => (d.name, d.temperature)))
      = some [(cityName ++ "-WO-" ++ pyFormatOpt r2.idema, r2.ta),
              (cityName ++ "-WO-" ++ pyFormatOpt r2.idema, r2.ta)] := by
  obtain ⟨st1, e1, hi1⟩ :
      ∃ st1, process_record cityName initialLoopState r1 = .ok st1 ∧ st1.itemsBuilt = 1 :=
    ⟨_, process_record_matching cityName initialLoopState r1 u1 f1 dt1 hu1 hm1 hf1 hp1, rfl⟩
  rw [import_weather_reaches_loop cityName url env [r1, r2] h1 h2 h3 h4 h5]
  simp only [processRecords_cons, processRecords_nil, e1,
    process_record_matching cityName st1 r2 u2 f2 dt2 hu2 hm2 hf2 hp2]
  simp [runEntities, entitiesAtEnd, hi1]

/-- Claim C3, witness for the amended theorem at a concrete environment. -/
theorem c3_amended_witness :
    (runEntities (import_weather "GRANADA" (mkEnv [recGranadaTa10, recGranadaTa20]))).map
        (fun l => l.map (fun d => (d.name, d.temperature)))
      = some [("GRANADA" ++ "-WO-" ++ pyFormatOpt recGranadaTa20.idema, recGranadaTa20.ta),
              ("GRANADA" ++ "-WO-" ++ pyFormatOpt recGranadaTa20.idema, recGranadaTa20.ta)] :=
  c3_amended_shared_template_overwrite "GRANADA" "https://example.org/data"
    (mkEnv [recGranadaTa10, recGranadaTa20]) recGranadaTa10 recGranadaTa20
    "GRANADA/AEROPUERTO" "GRANADA-ARMILLA" "2023-06-29T20:00:00" "2023-06-29T21:00:00"
    ⟨2023, 6, 29, 20, 0, 0⟩ ⟨2023, 6, 29, 21, 0, 0⟩
    rfl rfl (by decide) rfl rfl rfl rfl rfl rfl rfl rfl rfl rfl

/-- Claim C4, counterexample: a record with no `ubi` key is not silently
excluded - the run aborts with `TypeError` and the following matching record
is never processed. -/
theorem c4_counterexample :
    import_weather "GRANADA" (mkEnv [recNoUbi, recGranadaOk]) = .error .typeError := rfl

/-- Claim C4, amended: a record whose `ubi` key is missing makes `re.split`
raise `TypeError`, at record level and - when the records before it complete -
for the whole run, which aborts instead of continuing over the remaining
records. -/
theorem c4_amended_missing_ubi_aborts_run :
    (∀ (cityName : String) (st : LoopState) (r : RawRecord),
      r.ubi = none → process_record cityName st r = .error .typeError)
  ∧ (∀ (cityName url : String) (env : WeatherEnv) (pre post : List RawRecord)
        (r : RawRecord),
      env.pointerResponse.status_code = 200 →
      env.pointerJson = some { datos := some url } → url ≠ "" →
      env.dataResponse.status_code = 200 →
      env.dataJson = some (pre ++ r :: post) →
      loopCompletes (processRecords cityName pre initialLoopState) = true →
      r.ubi = none →
      import_weather cityName env = .error .typeError) := by
  constructor
  · exact process_record_missing_ubi
  · intro cityName url env pre post r h1 h2 h3 h4 h5 hpre hu
    exact import_weather_aborts_at cityName url env pre post r _ h1 h2 h3 h4 h5 hpre
      (fun st => process_record_missing_ubi cityName st r hu)

/-- Claim C4, witness for the amended theorem at a concrete environment. -/
theorem c4_amended_witness :
    process_record "GRANADA" initialLoopState recNoUbi = .error .typeError
  ∧ import_weather "GRANADA" (mkEnv [recNoUbi, recGranadaOk]) = .error .typeError :=
  ⟨c4_amended_missing_ubi_aborts_run.1 "GRANADA" initialLoopState recNoUbi rfl,
   c4_amended_missing_ubi_aborts_run.2 "GRANADA" "https://example.org/data"
     (mkEnv [recNoUbi, recGranadaOk]) [] [recGranadaOk] recNoUbi
     rfl rfl (by decide) rfl rfl rfl rfl⟩

/-- Claim C5, counterexample: a matching record with a longitude but no
latitude still gets a location - the GeoJSON point is built unconditionally
with `None` in place of the missing coordinate, instead of being left unset. -/
theorem c5_counterexample :
    (runEntities (import_weather "GRANADA" (mkEnv [recGranadaLonOnly]))).map
        (fun l => l.map (fun d => d.location))
      = some [some { type := "Point", coordinates := [some 3, none] }]
  ∧ recGranadaLonOnly.lat = none
  ∧ (some { type := "Point", coordinates := [some 3, none] } : Option GeoPoint) ≠ none :=
  ⟨rfl, rfl, by decide⟩

/-- Claim C5, amended: for every matching record that maps without raising,
`location` is assigned the point with coordinate list `[lon, lat]` as read
from the record, absent coordinates included as `None`; it is never left
unset. -/
theorem c5_amended_location_always_set (cityName : String) (st : LoopState) (r : RawRecord)
    (u fs : String) (dt : PyDateTime)
    (hu : r.ubi = some u) (hm : firstSegment u = cityName)
    (hf : r.fint = some fs) (hp : strptime fs = some dt) :
    (process_record cityName st r).toOption.map (fun o => o.sharedData.location)
      = some (some { type := "Point", coordinates := [r.lon, r.lat] }) := by
  rw [process_record_matching cityName st r u fs dt hu hm hf hp]
  rfl

/-- Claim C5, witness for the amended theorem at a concrete record. -/
theorem c5_amended_witness :
    (process_record "GRANADA" initialLoopState recGranadaLonOnly).toOption.map
        (fun o => o.sharedData.location)
      = some (some { type := "Point", coordinates := [some 3, none] }) :=
  c5_amended_location_always_set "GRANADA" initialLoopState recGranadaLonOnly
    "GRANADA/SUR" "2023-06-29T20:00:00" ⟨2023, 6, 29, 20, 0, 0⟩ rfl rfl rfl rfl

/-- Claim C6: with `datos` empty (and likewise with `datos` absent) the run
performs no second fetch and raises no error - the deliberately broken
data-side responses are never consulted - and builds no entity; but the Python
return value is `None`, which is not an empty entity list. -/
theorem c6_falsy_datos_no_second_fetch_returns_none :
    runSummary (import_weather "GRANADA" envDatosEmpty) = some (false, 0, none)
  ∧ runSummary (import_weather "GRANADA" envDatosMissing) = some (false, 0, none)
  ∧ (none : Option (List WeatherData)) ≠ some [] :=
  ⟨rfl, rfl, by decide⟩

/-- Claim C7: for every matching record whose `fint` parses under
`DATE_TIME_FORMAT`, the assigned `dateObserved` is exactly the `fint` string
with a literal `Z` appended - re-formatting only, no timezone shift. -/
theorem c7_dateObserved_reformats_fint (cityName : String) (st : LoopState) (r : RawRecord)
    (u fs : String) (dt : PyDateTime)
    (hu : r.ubi = some u) (hm : firstSegment u = cityName)
    (hf : r.fint = some fs) (hp : strptime fs = some dt) :
    (process_record cityName st r).toOption.map (fun o => o.sharedData.dateObserved)
      = some (some (fs ++ "Z")) := by
  rw [process_record_matching cityName st r u fs dt hu hm hf hp,
      strftimeZ_strptime fs dt hp]
  rfl

/-- Claim C7, witness: `fint` 2023-06-29T20:00:00 yields `dateObserved`
2023-06-29T20:00:00Z. -/
theorem c7_witness :
    (process_record "GRANADA" initialLoopState recGranadaOk).toOption.map
        (fun o => o.sharedData.dateObserved)
      = some (some ("2023-06-29T20:00:00" ++ "Z")) :=
  c7_dateObserved_reformats_fint "GRANADA" initialLoopState recGranadaOk
    "GRANADA/AEROPUERTO" "2023-06-29T20:00:00" ⟨2023, 6, 29, 20, 0, 0⟩ rfl rfl rfl rfl

/-- Claim C8, counterexample: after a matching record with `hr` 50, a second
matching record with no `hr` key still shows relative humidity 0.5 - the
conditional assignment leaves the previous value in the shared dictionary
instead of leaving the field unset. -/
theorem c8_counterexample :
    (runEntities (import_weather "GRANADA" (mkEnv [recGranadaHr50, recGranadaHrNone]))).map
        (fun l => l.map (fun d => d.relativeHumidity))
      = some [some ((50 : Rat) / 100), some ((50 : Rat) / 100)]
  ∧ recGranadaHrNone.hr = none
  ∧ (50 : Rat) / 100 = 1 / 2
  ∧ ((some ((50 : Rat) / 100) : Option Rat) ≠ none) :=
  ⟨rfl, rfl, by norm_num, by decide⟩

/-- Claim C8, amended: for a matching record that maps without raising, a
present non-zero `hr` assigns `relativeHumidity := hr / 100`; an absent or
zero `hr` leaves the field at its previous value in the shared dictionary
(unset only when no earlier matching record assigned it). -/
theorem c8_amended_relative_humidity :
    (∀ (cityName : String) (st : LoopState) (r : RawRecord) (u fs : String)
        (dt : PyDateTime) (h : Rat),
      r.ubi = some u → firstSegment u = cityName → r.fint = some fs →
      strptime fs = some dt → r.hr = some h → h ≠ 0 →
      (process_record cityName st r).toOption.map (fun o => o.sharedData.relativeHumidity)
        = some (some (h / 100)))
  ∧ (∀ (cityName : String) (st : LoopState) (r : RawRecord) (u fs : String)
        (dt : PyDateTime),
      r.ubi = some u → firstSegment u = cityName → r.fint = some fs →
      strptime fs = some dt → (r.hr = none ∨ r.hr = some 0) →
      (process_record cityName st r).toOption.map (fun o => o.sharedData.relativeHumidity)
        = some st.sharedData.relativeHumidity) := by
  constructor
  · intro cityName st r u fs dt h hu hm hf hp hhr h0
    rw [process_record_matching cityName st r u fs dt hu hm hf hp]
    simp only [hhr]
    rw [if_neg h0]
    rfl
  · intro cityName st r u fs dt hu hm hf hp hhr
    rw [process_record_matching cityName st r u fs dt hu hm hf hp]
    rcases hhr with hhr | hhr
    · simp only [hhr]
      rfl
    · simp only [hhr]
      rfl

/-- Claim C8, witness: `hr` 50 yields 0.5, and from the template state (where
no earlier record assigned the field) an absent `hr` leaves it `None`. -/
theorem c8_amended_witness :
    (process_record "GRANADA" initialLoopState recGranadaHr50).toOption.map
        (fun o => o.sharedData.relativeHumidity)
      = some (some ((50 : Rat) / 100))
  ∧ (process_record "GRANADA" initialLoopState recGranadaHrNone).toOption.map
        (fun o => o.sharedData.relativeHumidity)
      = some initialLoopState.sharedData.relativeHumidity :=
  ⟨c8_amended_relative_humidity.1 "GRANADA" initialLoopState recGranadaHr50
      "GRANADA/AEROPUERTO" "2023-06-29T20:00:00" ⟨2023, 6, 29, 20, 0, 0⟩ 50
      rfl rfl rfl rfl rfl (by norm_num),
   c8_amended_relative_humidity.2 "GRANADA" initialLoopState recGranadaHrNone
      "GRANADA-ZAIDIN" "2023-06-29T21:00:00" ⟨2023, 6, 29, 21, 0, 0⟩
      rfl rfl rfl rfl (Or.inl rfl)⟩

/-- Claim C9: for every record whose `ubi` first segment equals the target
name (and which maps without raising), the assigned `name` is the target name,
the literal -WO- and the station id; and the slash and dash separators are
interchangeable - both GRANADA/AEROPUERTO and GRANADA-AEROPUERTO have first
segment GRANADA. -/
theorem c9_name_from_first_segment :
    (∀ (cityName : String) (st : LoopState) (r : RawRecord) (u i fs : String)
        (dt : PyDateTime),
      r.ubi = some u → firstSegment u = cityName → r.idema = some i →
      r.fint = some fs → strptime fs = some dt →
      (process_record cityName st r).toOption.map (fun o => o.sharedData.name)
        = some (cityName ++ "-WO-" ++ i))
  ∧ firstSegment "GRANADA/AEROPUERTO" = "GRANADA"
  ∧ firstSegment "GRANADA-AEROPUERTO" = "GRANADA" := by
  refine ⟨?_, rfl, rfl⟩
  intro cityName st r u i fs dt hu hm hi hf hp
  rw [process_record_matching cityName st r u fs dt hu hm hf hp]
  simp only [hi, pyFormatOpt]
  rfl

/-- Claim C9, witness at a concrete record and at the two spec strings. -/
theorem c9_witness :
    (process_record "GRANADA" initialLoopState recGranadaOk).toOption.map
        (fun o => o.sharedData.name) = some ("GRANADA" ++ "-WO-" ++ "5530E")
  ∧ firstSegment "GRANADA/AEROPUERTO" = "GRANADA"
  ∧ firstSegment "GRANADA-AEROPUERTO" = "GRANADA" :=
  ⟨c9_name_from_first_segment.1 "GRANADA" initialLoopState recGranadaOk
      "GRANADA/AEROPUERTO" "5530E" "2023-06-29T20:00:00" ⟨2023, 6, 29, 20, 0, 0⟩
      rfl rfl rfl rfl rfl,
   c9_name_from_first_segment.2.1, c9_name_from_first_segment.2.2⟩

/-- Claim C10: a matching record with no `fint` key at all makes the timestamp
parse receive `None` and raise `TypeError`, at record level and - when the
records before it complete - for the whole run, which aborts rather than
skipping the record or leaving `dateObserved` unset. -/
theorem c10_missing_fint_aborts :
    (∀ (cityName : String) (st : LoopState) (r : RawRecord) (u : String),
      r.ubi = some u → firstSegment u = cityName → r.fint = none →
      process_record cityName st r = .error .typeError)
  ∧ (∀ (cityName url : String) (env : WeatherEnv) (pre post : List RawRecord)
        (r : RawRecord) (u : String),
      env.pointerResponse.status_code = 200 →
      env.pointerJson = some { datos := some url } → url ≠ "" →
      env.dataResponse.status_code = 200 →
      env.dataJson = some (pre ++ r :: post) →
      loopCompletes (processRecords cityName pre initialLoopState) = true →
      r.ubi = some u → firstSegment u = cityName → r.fint = none →
      import_weather cityName env = .error .typeError) := by
  constructor
  · exact process_record_missing_fint
  · intro cityName url env pre post r u h1 h2 h3 h4 h5 hpre hu hm hf
    exact import_weather_aborts_at cityName url env pre post r _ h1 h2 h3 h4 h5 hpre
      (fun st => process_record_missing_fint cityName st r u hu hm hf)

/-- Claim C10, witness at a concrete record and environment. -/
theorem c10_witness :
    process_record "GRANADA" initialLoopState recGranadaNoFint = .error .typeError
  ∧ import_weather "GRANADA" (mkEnv [recGranadaNoFint, recGranadaOk]) = .error .typeError :=
  ⟨c10_missing_fint_aborts.1 "GRANADA" initialLoopState recGranadaNoFint
      "GRANADA-NORTE" rfl rfl rfl,
   c10_missing_fint_aborts.2 "GRANADA" "https://example.org/data"
      (mkEnv [recGranadaNoFint, recGranadaOk]) [] [recGranadaOk] recGranadaNoFint
      "GRANADA-NORTE" rfl rfl (by decide) rfl rfl rfl rfl rfl rfl⟩

end OurWeatherImporter
